import Mathlib

/-!
Shallow embedding of the fact-checker pipeline (`backend.py` and
`fact_checker.py`).  External collaborators (the search provider, HTTP
fetching plus HTML paragraph extraction, the LLM completion call, and
Python's `json.loads`) are modelled as explicit inputs; the repository's
own control flow and data manipulation is translated directly.
-/

namespace FactChecker

/-- Python values as produced by `json.loads` and manipulated by the
scripts (dicts are association lists in insertion order). -/
inductive PyVal where
  | none
  | bool (b : Bool)
  | int (n : Int)
  | float (q : Rat)
  | str (s : String)
  | list (xs : List PyVal)
  | dict (kvs : List (String × PyVal))
  deriving Repr

/-- Python `v == t` for a string literal `t`: only equal strings compare
equal; every other type compares unequal. -/
def pyEqStr (v : PyVal) (t : String) : Bool :=
  match v with
  | PyVal.str s => s == t
  | _ => false

/-- Substring containment test (Python `sub in s` for strings). -/
def strContainsSub (s sub : String) : Bool :=
  (List.range (s.toList.length + 1)).any
    (fun i => sub.toList.isPrefixOf (s.toList.drop i))

/-- Python `key in v` for a string `key`: key membership for dicts,
element membership for lists, substring test for strings, and a
`TypeError` for non-iterable values. -/
def pyContains (v : PyVal) (key : String) : Except String Bool :=
  match v with
  | PyVal.dict kvs => Except.ok (kvs.any (fun kv => kv.1 == key))
  | PyVal.list xs => Except.ok (xs.any (fun x => pyEqStr x key))
  | PyVal.str s => Except.ok (strContainsSub s key)
  | _ => Except.error "TypeError: argument of type is not iterable"

/-- Python `v[key]` for a string `key`: dict lookup (or `KeyError`);
a `TypeError` on every non-dict value. -/
def pySubscriptStr (v : PyVal) (key : String) : Except String PyVal :=
  match v with
  | PyVal.dict kvs =>
    match kvs.lookup key with
    | some x => Except.ok x
    | Option.none => Except.error "KeyError"
  | _ => Except.error "TypeError: value is not subscriptable by a string"

/-- Python `v.get(key, dflt)`: only dicts have the `get` method; every
other value raises `AttributeError`. -/
def pyGet (v : PyVal) (key : String) (dflt : PyVal) : Except String PyVal :=
  match v with
  | PyVal.dict kvs => Except.ok ((kvs.lookup key).getD dflt)
  | _ => Except.error "AttributeError: object has no attribute get"

/-- Python `v / 100` (true division, exact rational semantics): defined
for ints, floats and bools, a `TypeError` otherwise. -/
def pyTrueDiv100 (v : PyVal) : Except String Rat :=
  match v with
  | PyVal.int n => Except.ok ((n : Rat) / 100)
  | PyVal.float q => Except.ok (q / 100)
  | PyVal.bool b => Except.ok ((if b then (1 : Rat) else 0) / 100)
  | _ => Except.error "TypeError: unsupported operand types for division"

/-- A snippet as built by `get_web_snippets`: `{"url": ..., "text": ...}`. -/
structure Snippet where
  url : String
  text : String
  deriving Repr, DecidableEq

/-- One element of the `evidence` list built by `check_fact`:
`{"source": "Web", "snippet": s["text"], "url": s["url"]}`. -/
structure EvidenceItem where
  source : String
  snippet : String
  url : String
  deriving Repr, DecidableEq

/-- The dict returned by `check_fact`.  The `summary` field is kept as a
`PyVal` because the Python code places `result.get("explanation", "")`
there without any type check. -/
structure CheckResult where
  verdict : String
  confidence : Rat
  summary : PyVal
  evidence : List EvidenceItem
  deriving Repr

/-- Outcome of `requests.get` plus BeautifulSoup extraction for one URL:
either a `requests.RequestException` (timeout, non-2xx status via
`raise_for_status`, connection failure), or the list of paragraph texts
(`p.get_text(separator=" ", strip=True)` for each `<p>` element). -/
inductive FetchOutcome where
  | fail
  | page (paragraphs : List String)
  deriving Repr, DecidableEq

/-- Python `s[:n]` on strings (code points), for any integer `n`. -/
def pySliceTo (s : String) (n : Int) : String :=
  if 0 ≤ n then ⟨s.toList.take n.toNat⟩
  else ⟨s.toList.take (s.toList.length - (-n).toNat)⟩

/-- `fact_checker.get_web_snippets`, lines 26-40 of `fact_checker.py`.
The external search provider and the per-URL fetch+extraction are inputs:
`results` pairs each candidate URL (in search order) with what fetching
it yields.  The loop appends, per successful URL with non-empty joined
paragraph text, `{"url": url, "text": text[:char_limit]}`, and a failing
URL is skipped with a warning. -/
def get_web_snippets : List (String × FetchOutcome) → Int → List Snippet
  | [], _ => []
  | (_, FetchOutcome.fail) :: rest, char_limit => get_web_snippets rest char_limit
  | (url, FetchOutcome.page ps) :: rest, char_limit =>
    let text := String.intercalate " " ps
    if text ≠ "" then
      ⟨url, pySliceTo text char_limit⟩ :: get_web_snippets rest char_limit
    else get_web_snippets rest char_limit

/-- Python `s.strip()`: remove leading and trailing whitespace. -/
def pyStrip (s : String) : String :=
  ⟨((s.toList.dropWhile Char.isWhitespace).reverse.dropWhile
      Char.isWhitespace).reverse⟩

/-- The character `{`. -/
def lbrace : Char := Char.ofNat 123

/-- The character `}`. -/
def rbrace : Char := Char.ofNat 125

/-- Python `s.find(c)` for a single-character needle: first index (in
code points) or `-1`. -/
def pyFindChar (s : String) (c : Char) : Int :=
  match s.toList.findIdx? (fun x => x == c) with
  | some i => (i : Int)
  | Option.none => -1

/-- Python `s.rfind(c)` for a single-character needle: last index (in
code points) or `-1`. -/
def pyRfindChar (s : String) (c : Char) : Int :=
  match s.toList.reverse.findIdx? (fun x => x == c) with
  | some i => ((s.toList.length : Int) - 1 - (i : Int))
  | Option.none => -1

/-- Python `s[a:b]` for natural bounds. -/
def pySliceRange (s : String) (a b : Nat) : String :=
  ⟨(s.toList.drop a).take (b - a)⟩

/-- Lines 100-106 of `fact_checker.py`: if the first `{` and the last `}`
both exist and the `}` comes strictly later, the inclusive substring
between them, otherwise nothing. -/
def braceSubstring (s : String) : Option String :=
  let start := pyFindChar s lbrace
  let stop := pyRfindChar s rbrace
  if start ≠ -1 ∧ stop ≠ -1 ∧ stop > start then
    some (pySliceRange s start.toNat (stop.toNat + 1))
  else Option.none

/-- `fact_checker.verify_claim`, lines 58-118 of `fact_checker.py`, as a
function of its external collaborators: `loads` is Python's
`json.loads` (`Option.none` meaning `json.JSONDecodeError`), and `llm`
is the outcome of the Gemini call plus the defensive text extraction —
`Except.error e` when `generate_content` raised an exception rendered as
`e`, `Except.ok t` when text `t` was extracted from the response.
On an exception it returns `{"error": f"API request failed: {e}"}`;
otherwise it strips the text, tries `json.loads` on the whole of it,
then on the first-`{`-to-last-`}` substring, and finally returns
`{"raw_response": <stripped text>}`. -/
def verify_claim (loads : String → Option PyVal) (llm : Except String String) : PyVal :=
  match llm with
  | Except.error e => PyVal.dict [("error", PyVal.str ("API request failed: " ++ e))]
  | Except.ok rawText =>
    let model_text := pyStrip rawText
    match loads model_text with
    | some parsed => parsed
    | Option.none =>
      match braceSubstring model_text with
      | some maybe_json =>
        match loads maybe_json with
        | some parsed => parsed
        | Option.none => PyVal.dict [("raw_response", PyVal.str model_text)]
      | Option.none => PyVal.dict [("raw_response", PyVal.str model_text)]

/-- `backend.check_fact`, lines 4-38 of `backend.py`, downstream of the
`get_web_snippets` call: `snippets` is what `get_web_snippets` returned
for the site-restricted query, and `verify` is the call to
`verify_claim` (invoked at most once; the returned counter says how many
times).  Python exceptions escaping `check_fact` are `Except.error`. -/
def check_fact (snippets : List Snippet) (verify : Unit → PyVal) :
    Except String CheckResult × Nat :=
  if snippets.isEmpty then
    (Except.ok ⟨"Unclear", 0, PyVal.str "No evidence found.", []⟩, 0)
  else
    let result := verify ()
    (do
      let hasErr ← pyContains result "error"
      if hasErr then
        let msg ← pySubscriptStr result "error"
        Except.ok ⟨"Unclear", 0, msg, []⟩
      else
        let v ← pyGet result "verdict" PyVal.none
        let c ← pyGet result "confidence" (PyVal.int 0)
        let conf ← pyTrueDiv100 c
        let ex ← pyGet result "explanation" (PyVal.str "")
        Except.ok ⟨(if pyEqStr v "SUPPORTED" then "True"
                    else if pyEqStr v "REFUTED" then "False"
                    else "Unclear"),
                   conf, ex,
                   snippets.map (fun s => ⟨"Web", s.text, s.url⟩)⟩,
     1)

/-- `backend.check_fact` composed with `get_web_snippets` over the fetch
outcomes of the search results for the site-restricted query
(`num_results=6` bounds how many results the provider returns; the
default `char_limit=1000` is used by this call site). -/
def check_fact_full (results : List (String × FetchOutcome))
    (verify : Unit → PyVal) : Except String CheckResult × Nat :=
  check_fact (get_web_snippets results 1000) verify

/-! ### Helper lemmas -/

theorem any_key_false (kvs : List (String × PyVal)) (k : String)
    (h : k ∉ kvs.map Prod.fst) : kvs.any (fun kv => kv.1 == k) = false := by
  induction kvs with
  | nil => rfl
  | cons a t ih =>
    simp only [List.map_cons, List.mem_cons, not_or] at h
    simp only [List.any_cons, Bool.or_eq_false_iff]
    exact ⟨beq_eq_false_iff_ne.mpr (Ne.symm h.1), ih h.2⟩

theorem pyEqStr_iff (v : PyVal) (t : String) :
    pyEqStr v t = true ↔ v = PyVal.str t := by
  cases v <;> simp [pyEqStr]

theorem pyTrueDiv100_int (n : Int) :
    pyTrueDiv100 (PyVal.int n) = Except.ok ((n : Rat) / 100) := rfl

/-- Evaluation of `check_fact` on a structured (non-error) dict result,
assuming the confidence division succeeds. -/
theorem check_fact_structured_eq (s0 : Snippet) (snips : List Snippet)
    (kvs : List (String × PyVal))
    (hE : kvs.any (fun kv => kv.1 == "error") = false)
    (q : Rat)
    (hq : pyTrueDiv100 ((kvs.lookup "confidence").getD (PyVal.int 0)) = Except.ok q) :
    check_fact (s0 :: snips) (fun _ => PyVal.dict kvs) =
      (Except.ok
        ⟨(if pyEqStr ((kvs.lookup "verdict").getD PyVal.none) "SUPPORTED" then "True"
          else if pyEqStr ((kvs.lookup "verdict").getD PyVal.none) "REFUTED" then "False"
          else "Unclear"),
         q,
         (kvs.lookup "explanation").getD (PyVal.str ""),
         (s0 :: snips).map (fun s => ⟨"Web", s.text, s.url⟩)⟩, 1) := by
  simp [check_fact, pyContains, pyGet, hE, hq, Except.instMonad, Except.bind]

/-- A `json.loads` behaviour under which the model's reply `"[1, 2]"`
parses as the JSON array `[1, 2]` (exactly what Python's `json.loads`
does on that input). -/
def loadsArray : String → Option PyVal := fun s =>
  if s = "[1, 2]" then some (PyVal.list [PyVal.int 1, PyVal.int 2]) else Option.none

/-! ### Claims -/

/-- C1: the spec claims `check_fact` never raises for any predictable
failure, in particular when `verify_claim` returns a value that is not a
dict of the three documented shapes (e.g. the model replies with a JSON
array).  The code violates this: on the model reply `"[1, 2]"`,
`verify_claim` returns the parsed list (contradicting its own docstring,
which promises a dict), and `check_fact` then raises `AttributeError` at
`result.get("verdict")` instead of returning a `CheckResult`. -/
theorem check_fact_raises_on_nondict_reply :
    verify_claim loadsArray (Except.ok "[1, 2]") =
      PyVal.list [PyVal.int 1, PyVal.int 2] ∧
    check_fact [⟨"u", "t"⟩] (fun _ => verify_claim loadsArray (Except.ok "[1, 2]")) =
      (Except.error "AttributeError: object has no attribute get", 1) :=
  ⟨rfl, rfl⟩

/-- C2: whenever `get_web_snippets` returns an empty list, `check_fact`
returns exactly `{verdict: "Unclear", confidence: 0.0, summary:
"No evidence found.", evidence: []}` and `verify_claim` is never invoked
(the invocation counter is 0), for every possible verifier behaviour. -/
theorem check_fact_empty_evidence (results : List (String × FetchOutcome))
    (verify : Unit → PyVal) (h : get_web_snippets results 1000 = []) :
    check_fact_full results verify =
      (Except.ok ⟨"Unclear", 0, PyVal.str "No evidence found.", []⟩, 0) := by
  simp [check_fact_full, check_fact, h]

theorem check_fact_empty_evidence_witness :
    check_fact_full [("u", FetchOutcome.fail)] (fun _ => PyVal.int 7) =
      (Except.ok ⟨"Unclear", 0, PyVal.str "No evidence found.", []⟩, 0) :=
  check_fact_empty_evidence [("u", FetchOutcome.fail)] (fun _ => PyVal.int 7) rfl

/-- C3: for every structured result dict (no `"error"` key, confidence
an integer or absent so that the call returns), the verdict produced by
`check_fact` is `"True"` for `"SUPPORTED"`, `"False"` for `"REFUTED"`,
and `"Unclear"` for every other value of the `"verdict"` key — including
any non-`"SUPPORTED"`/non-`"REFUTED"` value (e.g. `"NOT ENOUGH INFO"`,
`""`, garbage, non-strings) and a missing key. -/
theorem check_fact_verdict_mapping (s0 : Snippet) (snips : List Snippet)
    (kvs : List (String × PyVal))
    (hE : "error" ∉ kvs.map Prod.fst)
    (hC : (∃ n : Int, kvs.lookup "confidence" = some (PyVal.int n)) ∨
          kvs.lookup "confidence" = Option.none) :
    (kvs.lookup "verdict" = some (PyVal.str "SUPPORTED") →
      ((check_fact (s0 :: snips) (fun _ => PyVal.dict kvs)).1).map CheckResult.verdict =
        Except.ok "True") ∧
    (kvs.lookup "verdict" = some (PyVal.str "REFUTED") →
      ((check_fact (s0 :: snips) (fun _ => PyVal.dict kvs)).1).map CheckResult.verdict =
        Except.ok "False") ∧
    (∀ v, kvs.lookup "verdict" = some v → v ≠ PyVal.str "SUPPORTED" →
      v ≠ PyVal.str "REFUTED" →
      ((check_fact (s0 :: snips) (fun _ => PyVal.dict kvs)).1).map CheckResult.verdict =
        Except.ok "Unclear") ∧
    (kvs.lookup "verdict" = Option.none →
      ((check_fact (s0 :: snips) (fun _ => PyVal.dict kvs)).1).map CheckResult.verdict =
        Except.ok "Unclear") := by
  have hE' := any_key_false kvs "error" hE
  obtain ⟨q, hq⟩ :
      ∃ q, pyTrueDiv100 ((kvs.lookup "confidence").getD (PyVal.int 0)) = Except.ok q := by
    rcases hC with ⟨n, hn⟩ | hn <;> rw [hn] <;> exact ⟨_, rfl⟩
  rw [check_fact_structured_eq s0 snips kvs hE' q hq]
  refine ⟨?_, ?_, ?_, ?_⟩
  · intro h; rw [h]; simp [pyEqStr, Except.map]
  · intro h; rw [h]; simp [pyEqStr, Except.map]
  · intro v hv h1 h2
    have hs : pyEqStr v "SUPPORTED" = false := by
      rw [Bool.eq_false_iff]
      exact fun hps => h1 ((pyEqStr_iff v "SUPPORTED").mp hps)
    have hr : pyEqStr v "REFUTED" = false := by
      rw [Bool.eq_false_iff]
      exact fun hps => h2 ((pyEqStr_iff v "REFUTED").mp hps)
    rw [hv]
    simp [hs, hr, Except.map]
  · intro h; rw [h]; simp [pyEqStr, Except.map]

theorem check_fact_verdict_mapping_witness :
    ((check_fact [⟨"u", "t"⟩]
        (fun _ => PyVal.dict
          [("verdict", PyVal.str "SUPPORTED"), ("confidence", PyVal.int 85)])).1).map
      CheckResult.verdict = Except.ok "True" :=
  (check_fact_verdict_mapping ⟨"u", "t"⟩ []
    [("verdict", PyVal.str "SUPPORTED"), ("confidence", PyVal.int 85)]
    (by decide) (Or.inl ⟨85, rfl⟩)).1 rfl

/-- C4: for every structured result dict with an integer confidence `n`
with `0 ≤ n ≤ 100`, the confidence in the `CheckResult` is exactly
`n / 100` (exact rational semantics of Python's true division), and a
missing confidence key maps to `0.0`. -/
theorem check_fact_confidence_linear (s0 : Snippet) (snips : List Snippet)
    (kvs : List (String × PyVal))
    (hE : "error" ∉ kvs.map Prod.fst) :
    (∀ n : Int, kvs.lookup "confidence" = some (PyVal.int n) → 0 ≤ n → n ≤ 100 →
      ((check_fact (s0 :: snips) (fun _ => PyVal.dict kvs)).1).map CheckResult.confidence =
        Except.ok ((n : Rat) / 100)) ∧
    (kvs.lookup "confidence" = Option.none →
      ((check_fact (s0 :: snips) (fun _ => PyVal.dict kvs)).1).map CheckResult.confidence =
        Except.ok 0) := by
  have hE' := any_key_false kvs "error" hE
  constructor
  · intro n hn _ _
    have hq : pyTrueDiv100 ((kvs.lookup "confidence").getD (PyVal.int 0)) =
        Except.ok ((n : Rat) / 100) := by rw [hn]; rfl
    rw [check_fact_structured_eq s0 snips kvs hE' _ hq]
    simp [Except.map]
  · intro hn
    have hq : pyTrueDiv100 ((kvs.lookup "confidence").getD (PyVal.int 0)) =
        Except.ok 0 := by rw [hn]; simp [pyTrueDiv100]
    rw [check_fact_structured_eq s0 snips kvs hE' _ hq]
    simp [Except.map]

theorem check_fact_confidence_linear_witness :
    ((check_fact [⟨"u", "t"⟩]
        (fun _ => PyVal.dict
          [("verdict", PyVal.str "SUPPORTED"), ("confidence", PyVal.int 85)])).1).map
      CheckResult.confidence = Except.ok ((85 : Rat) / 100) :=
  (check_fact_confidence_linear ⟨"u", "t"⟩ []
    [("verdict", PyVal.str "SUPPORTED"), ("confidence", PyVal.int 85)]
    (by decide)).1 85 rfl (by norm_num) (by norm_num)

/-- C5 (counterexample): the division by 100 is *not* clamped.  With a
structured result carrying `confidence = 150`, `check_fact` returns
confidence `3/2`, which exceeds the schema bound `1.0`. -/
theorem check_fact_confidence_not_clamped :
    ((check_fact [⟨"u", "t"⟩]
        (fun _ => PyVal.dict
          [("verdict", PyVal.str "SUPPORTED"), ("confidence", PyVal.int 150)])).1).map
      CheckResult.confidence = Except.ok ((3 : Rat) / 2) ∧
    ¬((3 : Rat) / 2 ≤ 1) := by
  constructor
  · have hq : pyTrueDiv100
        ((([("verdict", PyVal.str "SUPPORTED"), ("confidence", PyVal.int 150)] :
            List (String × PyVal)).lookup "confidence").getD (PyVal.int 0)) =
        Except.ok ((3 : Rat) / 2) := by
      show pyTrueDiv100 (PyVal.int 150) = Except.ok ((3 : Rat) / 2)
      rw [pyTrueDiv100_int]; norm_num
    rw [check_fact_structured_eq ⟨"u", "t"⟩ []
      [("verdict", PyVal.str "SUPPORTED"), ("confidence", PyVal.int 150)] rfl _ hq]
    simp [Except.map]
  · norm_num

/-- C5 (amended): `check_fact` performs no clamping; the resulting
confidence lies within the schema range `[0, 1]` exactly for structured
confidences already in `[0, 100]` (for integers outside that range the
output leaves `[0, 1]`, as the counterexample shows). -/
theorem check_fact_confidence_range (s0 : Snippet) (snips : List Snippet)
    (kvs : List (String × PyVal))
    (hE : "error" ∉ kvs.map Prod.fst) (n : Int)
    (hn : kvs.lookup "confidence" = some (PyVal.int n))
    (h0 : 0 ≤ n) (h100 : n ≤ 100) :
    ((check_fact (s0 :: snips) (fun _ => PyVal.dict kvs)).1).map CheckResult.confidence =
      Except.ok ((n : Rat) / 100) ∧
    0 ≤ (n : Rat) / 100 ∧ (n : Rat) / 100 ≤ 1 := by
  refine ⟨(check_fact_confidence_linear s0 snips kvs hE).1 n hn h0 h100, ?_, ?_⟩
  · positivity
  · rw [div_le_one (by norm_num : (0 : Rat) < 100)]
    exact_mod_cast h100

theorem check_fact_confidence_range_witness :
    ((check_fact [⟨"u", "t"⟩]
        (fun _ => PyVal.dict
          [("verdict", PyVal.str "SUPPORTED"), ("confidence", PyVal.int 85)])).1).map
      CheckResult.confidence = Except.ok ((85 : Rat) / 100) ∧
    0 ≤ (85 : Rat) / 100 ∧ (85 : Rat) / 100 ≤ 1 :=
  check_fact_confidence_range ⟨"u", "t"⟩ []
    [("verdict", PyVal.str "SUPPORTED"), ("confidence", PyVal.int 85)]
    (by decide) 85 rfl (by norm_num) (by norm_num)

/-- C6: if the LLM completion call raises (rendered as `Except.error e`),
`verify_claim` returns the error variant
`{"error": "API request failed: " + e}`, and `check_fact` then returns
verdict `"Unclear"`, confidence `0.0`, that error message as the
summary, and an empty evidence list. -/
theorem check_fact_provider_error (s0 : Snippet) (snips : List Snippet)
    (loads : String → Option PyVal) (e : String) :
    verify_claim loads (Except.error e) =
      PyVal.dict [("error", PyVal.str ("API request failed: " ++ e))] ∧
    check_fact (s0 :: snips) (fun _ => verify_claim loads (Except.error e)) =
      (Except.ok ⟨"Unclear", 0, PyVal.str ("API request failed: " ++ e), []⟩, 1) := by
  refine ⟨rfl, ?_⟩
  simp [check_fact, verify_claim, pyContains, pySubscriptStr, Except.instMonad, Except.bind]

/-- C7 (counterexample): when `verify_claim` degrades to the unparsed
variant `{"raw_response": <text>}`, `check_fact` does *not* surface the
raw reply text: it silently defaults into the fixed schema (verdict
`"Unclear"`, confidence `0.0`, summary `""`, full evidence list), and
the raw text appears nowhere in the returned `CheckResult`. -/
theorem check_fact_unparsed_defaulted :
    check_fact [⟨"u", "t"⟩]
        (fun _ => PyVal.dict [("raw_response", PyVal.str "The model rambled")]) =
      (Except.ok ⟨"Unclear", 0, PyVal.str "", [⟨"Web", "t", "u"⟩]⟩, 1) ∧
    PyVal.str "" ≠ PyVal.str "The model rambled" := by
  constructor
  · have hq : pyTrueDiv100
        ((([("raw_response", PyVal.str "The model rambled")] :
            List (String × PyVal)).lookup "confidence").getD (PyVal.int 0)) =
        Except.ok 0 := by
      show pyTrueDiv100 (PyVal.int 0) = Except.ok 0
      rw [pyTrueDiv100_int]; norm_num
    rw [check_fact_structured_eq ⟨"u", "t"⟩ []
      [("raw_response", PyVal.str "The model rambled")] rfl _ hq]
    simp [pyEqStr, List.lookup]
  · simp

/-- C7 (amended): for every unparsed variant `{"raw_response": txt}`
produced by `verify_claim`, `check_fact` silently defaults to verdict
`"Unclear"`, confidence `0.0`, empty summary, and the full evidence
list; the raw reply text is discarded rather than surfaced. -/
theorem check_fact_unparsed_silent_default (s0 : Snippet) (snips : List Snippet)
    (txt : String) :
    check_fact (s0 :: snips)
        (fun _ => PyVal.dict [("raw_response", PyVal.str txt)]) =
      (Except.ok ⟨"Unclear", 0, PyVal.str "",
        (s0 :: snips).map (fun s => ⟨"Web", s.text, s.url⟩)⟩, 1) := by
  have hq : pyTrueDiv100
      ((([("raw_response", PyVal.str txt)] :
          List (String × PyVal)).lookup "confidence").getD (PyVal.int 0)) =
      Except.ok 0 := by
    show pyTrueDiv100 (PyVal.int 0) = Except.ok 0
    rw [pyTrueDiv100_int]; norm_num
  have h := check_fact_structured_eq s0 snips [("raw_response", PyVal.str txt)]
    (by rfl) 0 hq
  simpa [pyEqStr] using h

/-- C8: a failing URL only omits its own contribution and never aborts
the batch: (1) deleting a failing URL anywhere in the candidate list
leaves the result unchanged; (2) the result is exactly the snippets of
the successful non-empty fetches in completion order; (3) the spec's
example — three URLs where the second times out — yields exactly the
snippets of the first and third. -/
theorem get_web_snippets_fetch_isolation :
    (∀ (a b : List (String × FetchOutcome)) (u : String) (cl : Int),
      get_web_snippets (a ++ (u, FetchOutcome.fail) :: b) cl =
        get_web_snippets (a ++ b) cl) ∧
    (∀ (results : List (String × FetchOutcome)) (cl : Int),
      get_web_snippets results cl = results.filterMap (fun r =>
        match r.2 with
        | FetchOutcome.fail => Option.none
        | FetchOutcome.page ps =>
          if String.intercalate " " ps ≠ "" then
            some ⟨r.1, pySliceTo (String.intercalate " " ps) cl⟩
          else Option.none)) ∧
    get_web_snippets
        [("u1", FetchOutcome.page ["hello", "world"]), ("u2", FetchOutcome.fail),
         ("u3", FetchOutcome.page ["bye"])] 1000 =
      [⟨"u1", "hello world"⟩, ⟨"u3", "bye"⟩] := by
  refine ⟨?_, ?_, rfl⟩
  · intro a b u cl
    induction a with
    | nil => rfl
    | cons hd t ih =>
      obtain ⟨url, o⟩ := hd
      cases o with
      | fail => simpa [get_web_snippets] using ih
      | page ps => simp [get_web_snippets, ih]
  · intro results cl
    induction results with
    | nil => rfl
    | cons hd t ih =>
      obtain ⟨url, o⟩ := hd
      cases o with
      | fail => simpa [get_web_snippets] using ih
      | page ps =>
        by_cases hT : String.intercalate " " ps = "" <;>
          simp [get_web_snippets, hT, ih]

/-- C9: `verify_claim` parses the extracted model text in this order:
(1) `json.loads` on the whole stripped text; (2) on failure, `json.loads`
on the substring from the first `{` to the last `}` inclusive; (3) if
both fail (or no such substring exists), return
`{"raw_response": <stripped text>}`. -/
theorem verify_claim_parse_order (loads : String → Option PyVal) (text : String) :
    (∀ v, loads (pyStrip text) = some v →
      verify_claim loads (Except.ok text) = v) ∧
    (∀ sub v, loads (pyStrip text) = Option.none →
      braceSubstring (pyStrip text) = some sub → loads sub = some v →
      verify_claim loads (Except.ok text) = v) ∧
    (∀ sub, loads (pyStrip text) = Option.none →
      braceSubstring (pyStrip text) = some sub → loads sub = Option.none →
      verify_claim loads (Except.ok text) =
        PyVal.dict [("raw_response", PyVal.str (pyStrip text))]) ∧
    (loads (pyStrip text) = Option.none →
      braceSubstring (pyStrip text) = Option.none →
      verify_claim loads (Except.ok text) =
        PyVal.dict [("raw_response", PyVal.str (pyStrip text))]) := by
  refine ⟨?_, ?_, ?_, ?_⟩ <;> intros <;> simp_all [verify_claim]

/-- The spec's fenced-reply example: the model wraps its JSON object in
prose and a code fence. -/
def exampleReplyText : String :=
  "Sure! ```json\n\x7b\"verdict\":\"SUPPORTED\",\"explanation\":\"ok\",\"confidence\":85,\"sources\":[]\x7d\n```"

/-- The first-`{`-to-last-`}` substring of `exampleReplyText`. -/
def exampleJsonSub : String :=
  "\x7b\"verdict\":\"SUPPORTED\",\"explanation\":\"ok\",\"confidence\":85,\"sources\":[]\x7d"

/-- What `json.loads` yields on `exampleJsonSub`. -/
def exampleParsed : PyVal :=
  PyVal.dict [("verdict", PyVal.str "SUPPORTED"), ("explanation", PyVal.str "ok"),
    ("confidence", PyVal.int 85), ("sources", PyVal.list [])]

/-- A `json.loads` behaviour agreeing with Python's on the two strings
the fenced-reply example exercises: the full fenced reply is not valid
JSON, the embedded object is. -/
def exampleLoads : String → Option PyVal := fun s =>
  if s = exampleJsonSub then some exampleParsed else Option.none

theorem verify_claim_parse_order_witness :
    verify_claim exampleLoads (Except.ok exampleReplyText) = exampleParsed :=
  (verify_claim_parse_order exampleLoads exampleReplyText).2.1
    exampleJsonSub exampleParsed rfl rfl rfl

/-- Truncation facts about a non-empty text and a positive limit. -/
theorem pySliceTo_props (text : String) (cl : Int) (hcl : 1 ≤ cl) (hT : text ≠ "") :
    pySliceTo text cl ≠ "" ∧ ((pySliceTo text cl).toList.length : Int) ≤ cl := by
  have h0 : (0 : Int) ≤ cl := le_trans (by norm_num) hcl
  rw [pySliceTo, if_pos h0]
  constructor
  · intro hEq
    have hTake : text.toList.take cl.toNat = ([] : List Char) :=
      congrArg String.data hEq
    rcases List.take_eq_nil_iff.mp hTake with h | h
    · have : (1 : Nat) ≤ cl.toNat := (Int.le_toNat h0).mpr (by exact_mod_cast hcl)
      omega
    · exact hT (by cases text with | mk l => cases h; rfl)
  · have h1 : (String.mk (text.toList.take cl.toNat)).toList.length =
        (text.toList.take cl.toNat).length := rfl
    rw [h1, List.length_take]
    omega

/-- C10 (counterexample): with `char_limit = 0` the truthiness check on
the untruncated text passes but the appended snippet's text `text[:0]`
is empty, so the non-emptiness invariant fails for that `char_limit`
argument. -/
theorem get_web_snippets_empty_text_at_zero_limit :
    get_web_snippets [("u", FetchOutcome.page ["abc"])] 0 = [⟨"u", ""⟩] ∧
    Snippet.text ⟨"u", ""⟩ = "" := ⟨rfl, rfl⟩

/-- C10 (amended): for every positive `char_limit` (in particular the
default 1000 used by every call in the repository), each snippet
returned by `get_web_snippets` has non-empty text of length at most
`char_limit` code points; pages with empty extracted text are discarded
before a snippet is created. -/
theorem get_web_snippets_snippet_invariant (results : List (String × FetchOutcome))
    (cl : Int) (hcl : 1 ≤ cl) :
    ∀ s ∈ get_web_snippets results cl,
      s.text ≠ "" ∧ (s.text.toList.length : Int) ≤ cl := by
  induction results with
  | nil => intro s hs; cases hs
  | cons hd t ih =>
    obtain ⟨url, o⟩ := hd
    cases o with
    | fail => simpa [get_web_snippets] using ih
    | page ps =>
      intro s hs
      by_cases hT : String.intercalate " " ps = ""
      · rw [show get_web_snippets ((url, FetchOutcome.page ps) :: t) cl =
            get_web_snippets t cl by simp [get_web_snippets, hT]] at hs
        exact ih s hs
      · rw [show get_web_snippets ((url, FetchOutcome.page ps) :: t) cl =
            ⟨url, pySliceTo (String.intercalate " " ps) cl⟩ :: get_web_snippets t cl by
              simp [get_web_snippets, hT]] at hs
        rcases List.mem_cons.mp hs with h | h
        · subst h
          exact pySliceTo_props (String.intercalate " " ps) cl hcl hT
        · exact ih s h

theorem get_web_snippets_snippet_invariant_witness :
    Snippet.text ⟨"u", "ab"⟩ ≠ "" ∧
    ((Snippet.text ⟨"u", "ab"⟩).toList.length : Int) ≤ 2 :=
  get_web_snippets_snippet_invariant [("u", FetchOutcome.page ["abc"])] 2
    (by norm_num) ⟨"u", "ab"⟩ (by decide)

end FactChecker
